import Mathlib

/-!
Verification of the CodeAgent command-line agent (`app/main.py`).

The development shallowly embeds the program: the three tool
implementations (`execute_read_tool`, `execute_write_tool`,
`execute_bash_tool`), the name-based tool dispatch (`execute_tool_call`),
and the agent loop from `main`.  The local filesystem and the shell are
modelled as explicit state / oracles so that the side-effecting Python
code becomes pure state-passing Lean code.
-/

namespace CodeAgent

deriving instance DecidableEq for Except

/-! ## Python string primitives used by the source -/

/-- The six ASCII whitespace characters stripped by Python's `str.strip()`. -/
def isPyWhitespace (c : Char) : Bool :=
  c = ' ' || c = '\t' || c = '\n' || c = '\r' || c = '\x0b' || c = '\x0c'

/-- Python `s.strip()`: remove leading and trailing whitespace. -/
def pyStrip (s : String) : String :=
  String.mk (((s.data.dropWhile isPyWhitespace).reverse.dropWhile isPyWhitespace).reverse)

/-- Remove trailing whitespace only (Python `s.rstrip()`). -/
def stripTrailing (s : String) : String :=
  String.mk ((s.data.reverse.dropWhile isPyWhitespace).reverse)

/-- Python `s.lower()`, restricted to the ASCII case mapping (tool names
in this program are ASCII). -/
def pyLower (s : String) : String :=
  String.mk (s.data.map Char.toLower)

/-- Python `'\n'.join(parts)`. -/
def joinParts : List String → String
  | [] => ""
  | [s] => s
  | s :: rest => s ++ "\n" ++ joinParts rest

/-- `os.path.dirname` for POSIX paths: everything before the last `/`,
with trailing slashes stripped unless the head consists only of slashes. -/
def dirname (p : String) : String :=
  let head := (p.data.reverse.dropWhile (fun c => c ≠ '/')).reverse
  if head = [] then ""
  else if head.all (fun c => c = '/') then String.mk head
  else String.mk ((head.reverse.dropWhile (fun c => c = '/')).reverse)

/-- Auxiliary, fuelled recursion for [dirChainOf]. -/
def dirChainAux : Nat → String → List String
  | 0, _ => []
  | n + 1, d =>
    if d = "" then []
    else d :: (if dirname d = d then [] else dirChainAux n (dirname d))

/-- The directory `d` together with all its ancestors: the set of
directories `os.makedirs(d, exist_ok=True)` ensures exist. -/
def dirChainOf (d : String) : List String :=
  dirChainAux (d.data.length + 1) d

/-! ## Filesystem model -/

/-- State of a path that exists as a file: readable with some contents, or
unreadable (open for reading raises an `IOError`, e.g. permissions,
directory-not-file, bad encoding). -/
inductive FileState where
  | readable (content : String)
  | unreadable (emsg : String)
deriving DecidableEq, Repr

/-- The filesystem, as seen by the three tools: an association list of
paths to file states, the set of existing directories, and an oracle
listing the paths at which directory creation or opening for write raises
an `IOError` (with the error's message). -/
structure FS where
  files : List (String × FileState)
  dirs : List String
  badWrites : List (String × String)
deriving DecidableEq, Repr

/-- First-match association-list lookup of a path among the files. -/
def lookupFile : List (String × FileState) → String → Option FileState
  | [], _ => none
  | (q, st) :: rest, p => if q = p then some st else lookupFile rest p

/-- Lookup of a path in the write-failure oracle. -/
def lookupBad : List (String × String) → String → Option String
  | [], _ => none
  | (q, m) :: rest, p => if q = p then some m else lookupBad rest p

/-- Overwrite (or create) the file at `p` with contents `c`. -/
def setFile (files : List (String × FileState)) (p c : String) :
    List (String × FileState) :=
  (p, FileState.readable c) :: files

/-! ## Tool arguments and errors -/

/-- The parsed JSON argument object of a tool call, restricted to the
three string-valued keys the tools actually read (`arguments.get(k)`
yields `none` when the key is absent). -/
structure Args where
  file_path : Option String
  content : Option String
  command : Option String
deriving DecidableEq, Repr

/-- The failure taxonomy of the tool layer.  In the source every failure
is a `RuntimeError` carrying a message; the constructor records which
`raise` site produced it. -/
inductive ToolError where
  | missingParameter (msg : String)
  | notFound (msg : String)
  | ioFailure (msg : String)
  | unsupportedTool (msg : String)
  | malformedToolRequest (msg : String)
deriving DecidableEq, Repr

/-- The message of the underlying `RuntimeError`. -/
def ToolError.message : ToolError → String
  | .missingParameter m => m
  | .notFound m => m
  | .ioFailure m => m
  | .unsupportedTool m => m
  | .malformedToolRequest m => m

/-! ## Tool implementations -/

/-- `execute_read_tool` from the source: requires a truthy `file_path`,
opens the file, maps `FileNotFoundError` and `IOError` to the
corresponding `RuntimeError`s. -/
def execute_read_tool (args : Args) (fs : FS) : Except ToolError String :=
  match args.file_path with
  | none => .error (.missingParameter "file_path parameter is missing")
  | some p =>
    if p = "" then .error (.missingParameter "file_path parameter is missing")
    else
      match lookupFile fs.files p with
      | none => .error (.notFound ("File not found: " ++ p))
      | some (.readable c) => .ok c
      | some (.unreadable m) =>
        .error (.ioFailure ("Error reading file " ++ p ++ ": " ++ m))

/-- `execute_write_tool` from the source: requires a truthy `file_path`
and a non-`None` `content` (the empty string is accepted), creates the
missing directories of `dirname file_path`, writes the file, and returns
a confirmation naming the path; an `IOError` becomes a `RuntimeError`. -/
def execute_write_tool (args : Args) (fs : FS) : Except ToolError (String × FS) :=
  match args.file_path with
  | none => .error (.missingParameter "file_path parameter is missing")
  | some p =>
    if p = "" then .error (.missingParameter "file_path parameter is missing")
    else
      match args.content with
      | none => .error (.missingParameter "content parameter is missing")
      | some c =>
        match lookupBad fs.badWrites p with
        | some m => .error (.ioFailure ("Error writing to file " ++ p ++ ": " ++ m))
        | none =>
          let d := dirname p
          let fs1 : FS :=
            if d = "" then fs else { fs with dirs := dirChainOf d ++ fs.dirs }
          .ok ("Successfully wrote to " ++ p, { fs1 with files := setFile fs1.files p c })

/-- The result of a completed shell process (`subprocess.run` with
`capture_output=True, text=True`). -/
structure ProcResult where
  stdout : String
  stderr : String
  returncode : Int
deriving DecidableEq, Repr

/-- The shell, as an oracle: a command either runs to completion with a
`ProcResult`, or fails to launch with an exception message. -/
abbrev Shell := String → Except String ProcResult

/-- The output-combining step of `execute_bash_tool`: collect the truthy
streams (stdout first), join with a newline, strip the overall result. -/
def combineOutput (r : ProcResult) : String :=
  let parts : List String :=
    (if r.stdout = "" then [] else [r.stdout]) ++
    (if r.stderr = "" then [] else [r.stderr])
  pyStrip (joinParts parts)

/-- `execute_bash_tool` from the source: requires a truthy `command`,
runs it through the shell, combines the captured streams, and prepends
`"Exit code: <n>"` when the process exited non-zero; a launch failure
becomes a `RuntimeError`. -/
def execute_bash_tool (args : Args) (sh : Shell) : Except ToolError String :=
  match args.command with
  | none => .error (.missingParameter "command parameter is missing")
  | some cmd =>
    if cmd = "" then .error (.missingParameter "command parameter is missing")
    else
      match sh cmd with
      | .error m =>
        .error (.ioFailure ("Error executing command '" ++ cmd ++ "': " ++ m))
      | .ok r =>
        let output := combineOutput r
        if r.returncode ≠ 0 then
          if output ≠ "" then
            .ok ("Exit code: " ++ toString r.returncode ++ "\n" ++ output)
          else
            .ok ("Exit code: " ++ toString r.returncode)
        else
          .ok output

/-! ## Tool registry and dispatch -/

/-- The alias list the dispatch accepts for the file-read tool. -/
def readNames : List String := ["read", "readfile", "read_file"]

/-- The alias list the dispatch accepts for the file-write tool. -/
def writeNames : List String := ["write", "writefile", "write_file"]

/-- The alias list the dispatch accepts for the shell tool. -/
def bashNames : List String := ["bash", "shell", "command", "run"]

/-- Which of the three tool implementations a name resolves to. -/
inductive ToolKind where
  | read
  | write
  | bash
deriving DecidableEq, Repr

/-- Name resolution, extracted from the alias chain of
`execute_tool_call`: lower-case the name and look it up in the three
alias lists. -/
def resolve (name : String) : Option ToolKind :=
  let n := pyLower name
  if n ∈ readNames then some .read
  else if n ∈ writeNames then some .write
  else if n ∈ bashNames then some .bash
  else none

/-- The `arguments` field of a tool call: a JSON string that either
parses to an argument object or is malformed (`json.loads` raises). -/
inductive ArgSrc where
  | parsed (args : Args)
  | malformed (raw : String)
deriving DecidableEq, Repr

/-- The `function` field of a model-issued tool call. -/
structure ToolFunction where
  name : String
  arguments : ArgSrc
deriving DecidableEq, Repr

/-- A model-issued tool call: correlation id, call type, and function. -/
structure ToolCall where
  id : String
  type : String
  function : ToolFunction
deriving DecidableEq, Repr

/-- The mutable world the tools act on: the filesystem and the shell. -/
structure World where
  fs : FS
  shell : Shell

/-- `execute_tool_call` from the source: reject non-`"function"` call
types, lower-case the name, parse the JSON arguments, and dispatch on the
alias lists; an unknown name raises `Unsupported function`. -/
def execute_tool_call (w : World) (tc : ToolCall) :
    Except ToolError (String × World) :=
  if tc.type ≠ "function" then
    .error (.unsupportedTool ("Unsupported tool call type: " ++ tc.type))
  else
    let fname := pyLower tc.function.name
    match tc.function.arguments with
    | .malformed raw =>
      .error (.malformedToolRequest ("Failed to parse arguments: " ++ raw))
    | .parsed args =>
      if fname ∈ readNames then
        (execute_read_tool args w.fs).map (fun s => (s, w))
      else if fname ∈ writeNames then
        (execute_write_tool args w.fs).map
          (fun pr => (pr.1, { fs := pr.2, shell := w.shell }))
      else if fname ∈ bashNames then
        (execute_bash_tool args w.shell).map (fun s => (s, w))
      else
        .error (.unsupportedTool ("Unsupported function: " ++ tc.function.name))

/-! ## Conversation state and the agent loop -/

/-- One entry of the conversation log (`messages` in the source). -/
inductive Turn where
  | user (content : String)
  | assistant (content : Option String) (tool_calls : List ToolCall)
  | tool (tool_call_id : String) (content : String)
deriving DecidableEq, Repr

/-- One choice's message in a chat response: optional text plus the
(possibly empty) list of tool calls. -/
structure Message where
  content : Option String
  tool_calls : List ToolCall
deriving DecidableEq, Repr

/-- A chat-completions response: its list of choices. -/
structure ChatResponse where
  choices : List Message
deriving DecidableEq, Repr

/-- The outcome of handling one model response inside the loop body. -/
inductive StepOutcome where
  | next (w : World) (messages : List Turn)
  | done (finalOutput : String) (messages : List Turn)
  | failed (errMsg : String)

/-- The `for tool_call in message.tool_calls` body of the loop: execute
each call in order, threading the world, and collect one tool-result turn
per call; the first raised `RuntimeError` aborts the whole run. -/
def dispatchTools (w : World) : List ToolCall → Except String (World × List Turn)
  | [] => .ok (w, [])
  | tc :: rest =>
    match execute_tool_call w tc with
    | .error e => .error e.message
    | .ok (r, w1) =>
      match dispatchTools w1 rest with
      | .error e => .error e
      | .ok (w2, turns) => .ok (w2, Turn.tool tc.id r :: turns)

/-- One iteration of the `while True` loop in `main`, given the model's
response: reject an empty choice list, append the assistant turn, then
either dispatch the tool calls or finish with the final answer. -/
def runStep (w : World) (chat : ChatResponse) (messages : List Turn) : StepOutcome :=
  match chat.choices with
  | [] => .failed "No choices in response"
  | message :: _ =>
    match message.tool_calls with
    | [] => .done (message.content.getD "")
        (messages ++ [Turn.assistant message.content []])
    | tc0 :: rest =>
      match dispatchTools w (tc0 :: rest) with
      | .error e => .failed e
      | .ok (w1, toolTurns) =>
        .next w1 (messages ++ Turn.assistant message.content (tc0 :: rest) :: toolTurns)

/-- How a run ends: the final answer printed to stdout, or an error. -/
inductive LoopResult where
  | done (finalOutput : String) (messages : List Turn)
  | failed (errMsg : String)
deriving DecidableEq, Repr

/-- The agent loop driven by a script of model responses (the sequence
the model service returns on successive round-trips); `none` means the
script was exhausted while the loop still awaited the model. -/
def agentLoop : List ChatResponse → World → List Turn → Option LoopResult
  | [], _, _ => none
  | resp :: rest, w, messages =>
    match runStep w resp messages with
    | .done t m => some (.done t m)
    | .failed e => some (.failed e)
    | .next w1 m => agentLoop rest w1 m

/-- The observable outcome of the process: exit status, stdout, stderr. -/
structure RunOutput where
  exitCode : Nat
  stdout : String
  stderr : String
deriving DecidableEq, Repr

/-- The output contract of `main`: on success print the final text to
stdout with no added newline and exit 0; on failure print
`Error: <msg>` to stderr and exit 1 with nothing on stdout. -/
def runOutput : LoopResult → RunOutput
  | .done t _ => { exitCode := 0, stdout := t, stderr := "" }
  | .failed e => { exitCode := 1, stdout := "", stderr := "Error: " ++ e ++ "\n" }

/-! ## The spec's wording of the Execute output combination

The spec describes the stream combination as trimming the trailing
whitespace of each captured stream before joining.  This definition
follows the spec's words, to be compared against [combineOutput], which
is translated from the code. -/

/-- Modelled from the spec's words: stdout then stderr, each with
trailing whitespace trimmed, non-empty parts joined by a single newline,
the overall result trimmed. -/
def specCombine (S E : String) : String :=
  let s := stripTrailing S
  let e := stripTrailing E
  pyStrip (joinParts ((if s = "" then [] else [s]) ++ (if e = "" then [] else [e])))

/-! ## Helper lemmas -/

/-- The dispatch of `execute_tool_call` agrees with the extracted name
resolution [resolve]: for a `"function"` call with parseable arguments it
runs the implementation `resolve` names, and raises `Unsupported
function` exactly when `resolve` yields nothing. -/
theorem execute_tool_call_resolve (w : World) (tc : ToolCall) (args : Args)
    (ht : tc.type = "function") (ha : tc.function.arguments = .parsed args) :
    execute_tool_call w tc =
      match resolve tc.function.name with
      | some .read => (execute_read_tool args w.fs).map (fun s => (s, w))
      | some .write => (execute_write_tool args w.fs).map
          (fun pr => (pr.1, { fs := pr.2, shell := w.shell }))
      | some .bash => (execute_bash_tool args w.shell).map (fun s => (s, w))
      | none => .error (.unsupportedTool ("Unsupported function: " ++ tc.function.name)) := by
  simp only [execute_tool_call, resolve, ht, ha, ne_eq, not_true_eq_false, if_false]
  by_cases h1 : pyLower tc.function.name ∈ readNames
  · simp [h1]
  · by_cases h2 : pyLower tc.function.name ∈ writeNames
    · simp [h1, h2]
    · by_cases h3 : pyLower tc.function.name ∈ bashNames
      · simp [h1, h2, h3]
      · simp [h1, h2, h3]

/-- A `"function"` call whose name resolves to no tool makes
`execute_tool_call` raise, whatever the world. -/
theorem unresolved_call_always_errors (tc : ToolCall) (ht : tc.type = "function")
    (hres : resolve tc.function.name = none) :
    ∀ w : World, ∃ e : ToolError, execute_tool_call w tc = .error e := by
  intro w
  cases harg : tc.function.arguments with
  | malformed raw =>
    refine ⟨.malformedToolRequest ("Failed to parse arguments: " ++ raw), ?_⟩
    simp [execute_tool_call, ht, harg]
  | parsed args =>
    refine ⟨.unsupportedTool ("Unsupported function: " ++ tc.function.name), ?_⟩
    rw [execute_tool_call_resolve w tc args ht harg, hres]

/-- If some call of the batch always raises, the whole batch dispatch
raises. -/
theorem dispatchTools_error_of_mem (tc : ToolCall)
    (herr : ∀ w : World, ∃ e, execute_tool_call w tc = .error e) :
    ∀ (tcs : List ToolCall), tc ∈ tcs → ∀ w, ∃ e, dispatchTools w tcs = .error e := by
  intro tcs
  induction tcs with
  | nil => intro h; cases h
  | cons hd tl ih =>
    intro hmem w
    cases hmem with
    | head _ =>
      obtain ⟨e, he⟩ := herr w
      exact ⟨e.message, by simp [dispatchTools, he]⟩
    | tail _ hmem =>
      cases hex : execute_tool_call w hd with
      | error e => exact ⟨e.message, by simp [dispatchTools, hex]⟩
      | ok pr =>
        obtain ⟨r, wmid⟩ := pr
        obtain ⟨e, he⟩ := ih hmem wmid
        exact ⟨e, by simp [dispatchTools, hex, he]⟩

/-- A successful batch dispatch produces exactly one tool-result turn per
request, in request order, each carrying its request's id. -/
theorem dispatchTools_ok_shape :
    ∀ (tcs : List ToolCall) (w w1 : World) (turns : List Turn),
      dispatchTools w tcs = .ok (w1, turns) →
      ∃ texts : List String, texts.length = tcs.length ∧
        turns = List.zipWith (fun tc t => Turn.tool tc.id t) tcs texts := by
  intro tcs
  induction tcs with
  | nil =>
    intro w w1 turns h
    refine ⟨[], rfl, ?_⟩
    simp only [dispatchTools, Except.ok.injEq, Prod.mk.injEq] at h
    simp [h.2.symm]
  | cons hd tl ih =>
    intro w w1 turns h
    simp only [dispatchTools] at h
    cases hex : execute_tool_call w hd with
    | error e => rw [hex] at h; cases h
    | ok pr =>
      obtain ⟨r, wmid⟩ := pr
      rw [hex] at h
      dsimp only at h
      cases hrest : dispatchTools wmid tl with
      | error e => rw [hrest] at h; cases h
      | ok pr2 =>
        obtain ⟨w2, turns2⟩ := pr2
        rw [hrest] at h
        dsimp only at h
        simp only [Except.ok.injEq, Prod.mk.injEq] at h
        obtain ⟨hw, hturns⟩ := h
        obtain ⟨texts, hlen, hshape⟩ := ih wmid w2 turns2 hrest
        refine ⟨r :: texts, by simp [hlen], ?_⟩
        rw [← hturns, hshape]
        simp [List.zipWith]

/-- A successful dispatch of a non-empty batch runs the head call first
and dispatches the tail in the world the head produced: execution is
strictly sequential. -/
theorem dispatchTools_cons_ok (w : World) (tc0 : ToolCall) (rest : List ToolCall)
    (w1 : World) (turns : List Turn)
    (h : dispatchTools w (tc0 :: rest) = .ok (w1, turns)) :
    ∃ r wmid turns', execute_tool_call w tc0 = .ok (r, wmid) ∧
      dispatchTools wmid rest = .ok (w1, turns') ∧
      turns = Turn.tool tc0.id r :: turns' := by
  simp only [dispatchTools] at h
  cases hex : execute_tool_call w tc0 with
  | error e => rw [hex] at h; cases h
  | ok pr =>
    obtain ⟨r, wmid⟩ := pr
    rw [hex] at h
    dsimp only at h
    cases hrest : dispatchTools wmid rest with
    | error e => rw [hrest] at h; cases h
    | ok pr2 =>
      obtain ⟨w2, turns2⟩ := pr2
      rw [hrest] at h
      dsimp only at h
      simp only [Except.ok.injEq, Prod.mk.injEq] at h
      obtain ⟨hw, hturns⟩ := h
      refine ⟨r, wmid, turns2, rfl, ?_, hturns.symm⟩
      rw [hrest, hw]

/-! ## Claim theorems -/

/-- C6: Tool-name resolution is case-insensitive and accepts a fixed
alias set per tool: the file-read tool resolves under its canonical name
`Read` and the two synonyms `ReadFile` and `read_file`, the write tool
under `Write`, `WriteFile`, `write_file`, and the shell tool under its
canonical name `Bash` and the three synonyms `shell`, `command`, `run`;
and every accepted name for a given tool dispatches `execute_tool_call`
to the same implementation. -/
theorem C6_alias_resolution :
    (∀ s t : String, pyLower s = pyLower t → resolve s = resolve t) ∧
    (resolve "Read" = some .read ∧ resolve "read" = some .read ∧
      resolve "ReadFile" = some .read ∧ resolve "read_file" = some .read) ∧
    (resolve "Write" = some .write ∧ resolve "WriteFile" = some .write ∧
      resolve "write_file" = some .write) ∧
    (resolve "Bash" = some .bash ∧ resolve "shell" = some .bash ∧
      resolve "command" = some .bash ∧ resolve "run" = some .bash) ∧
    (∀ (w : World) (tc : ToolCall) (args : Args),
      tc.type = "function" → tc.function.arguments = .parsed args →
      (resolve tc.function.name = some .read →
        execute_tool_call w tc = (execute_read_tool args w.fs).map (fun s => (s, w))) ∧
      (resolve tc.function.name = some .write →
        execute_tool_call w tc = (execute_write_tool args w.fs).map
          (fun pr => (pr.1, { fs := pr.2, shell := w.shell }))) ∧
      (resolve tc.function.name = some .bash →
        execute_tool_call w tc = (execute_bash_tool args w.shell).map (fun s => (s, w)))) := by
  refine ⟨?_, ⟨by decide, by decide, by decide, by decide⟩,
    ⟨by decide, by decide, by decide⟩, ⟨by decide, by decide, by decide, by decide⟩, ?_⟩
  · intro s t h
    simp only [resolve, h]
  · intro w tc args ht ha
    rw [execute_tool_call_resolve w tc args ht ha]
    refine ⟨fun hr => ?_, fun hr => ?_, fun hr => ?_⟩ <;> rw [hr]

/-- Witness for C6: `READ` resolves like `read`, and a concrete `Read`
call dispatches to `execute_read_tool`. -/
theorem C6_alias_resolution_witness :
    resolve "READ" = resolve "read" ∧
    execute_tool_call ⟨⟨[("f.txt", .readable "hi")], [], []⟩, fun _ => .error "no"⟩
        ⟨"id1", "function", ⟨"Read", .parsed ⟨some "f.txt", none, none⟩⟩⟩
      = (execute_read_tool ⟨some "f.txt", none, none⟩ ⟨[("f.txt", .readable "hi")], [], []⟩).map
          (fun s => (s, ⟨⟨[("f.txt", .readable "hi")], [], []⟩, fun _ => .error "no"⟩)) := by
  constructor
  · exact C6_alias_resolution.1 "READ" "read" (by decide)
  · exact (C6_alias_resolution.2.2.2.2
      ⟨⟨[("f.txt", .readable "hi")], [], []⟩, fun _ => .error "no"⟩
      ⟨"id1", "function", ⟨"Read", .parsed ⟨some "f.txt", none, none⟩⟩⟩
      ⟨some "f.txt", none, none⟩ rfl rfl).1 (by decide)

/-- C7: an assistant turn whose tool calls contain a name the registry
cannot resolve makes the run terminate as failed: non-zero exit status,
an `Error:` line on stderr, and nothing on stdout. -/
theorem C7_unresolvable_tool_aborts (m : Message) (cs : List Message)
    (tc : ToolCall) (hmem : tc ∈ m.tool_calls) (ht : tc.type = "function")
    (hres : resolve tc.function.name = none)
    (rest : List ChatResponse) (w : World) (msgs : List Turn) :
    ∃ e, agentLoop (⟨m :: cs⟩ :: rest) w msgs = some (.failed e) ∧
      runOutput (.failed e) = ⟨1, "", "Error: " ++ e ++ "\n"⟩ ∧
      (runOutput (.failed e)).exitCode ≠ 0 ∧
      (runOutput (.failed e)).stdout = "" ∧
      (runOutput (.failed e)).stderr ≠ "" := by
  obtain ⟨e, he⟩ := dispatchTools_error_of_mem tc
    (unresolved_call_always_errors tc ht hres) m.tool_calls hmem w
  refine ⟨e, ?_, rfl, by simp [runOutput], rfl, ?_⟩
  · cases htc : m.tool_calls with
    | nil => rw [htc] at hmem; cases hmem
    | cons tc0 tl =>
      rw [htc] at he
      simp [agentLoop, runStep, htc, he]
  · intro hcontra
    have := congrArg String.data hcontra
    simp [runOutput, String.data_append] at this

/-- Witness for C7: a call to the unknown tool `Frobnicate` aborts a
concrete run. -/
theorem C7_unresolvable_tool_aborts_witness :
    ∃ e, agentLoop
        [⟨[⟨none, [⟨"id1", "function", ⟨"Frobnicate", .parsed ⟨none, none, none⟩⟩⟩]⟩]⟩]
        ⟨⟨[], [], []⟩, fun _ => .error "no"⟩ [Turn.user "hi"] = some (.failed e) ∧
      runOutput (.failed e) = ⟨1, "", "Error: " ++ e ++ "\n"⟩ ∧
      (runOutput (.failed e)).exitCode ≠ 0 ∧
      (runOutput (.failed e)).stdout = "" ∧
      (runOutput (.failed e)).stderr ≠ "" :=
  C7_unresolvable_tool_aborts
    ⟨none, [⟨"id1", "function", ⟨"Frobnicate", .parsed ⟨none, none, none⟩⟩⟩]⟩ []
    ⟨"id1", "function", ⟨"Frobnicate", .parsed ⟨none, none, none⟩⟩⟩
    (by decide) rfl (by decide) [] ⟨⟨[], [], []⟩, fun _ => .error "no"⟩ [Turn.user "hi"]

/-- C8: a model response carrying no tool calls ends the loop right
there, in the done state, after consuming exactly that one response; the
final output is the assistant's text verbatim (the empty string when the
text is absent), printed once with exit status 0 and nothing added. -/
theorem C8_no_tool_calls_done (m : Message) (cs : List Message)
    (hm : m.tool_calls = [])
    (rest : List ChatResponse) (w : World) (msgs : List Turn) :
    agentLoop (⟨m :: cs⟩ :: rest) w msgs
      = some (.done (m.content.getD "") (msgs ++ [Turn.assistant m.content []])) ∧
    runOutput (.done (m.content.getD "") (msgs ++ [Turn.assistant m.content []]))
      = ⟨0, m.content.getD "", ""⟩ ∧
    (m.content = none → m.content.getD "" = "") := by
  refine ⟨?_, rfl, fun h => by rw [h]; rfl⟩
  simp [agentLoop, runStep, hm]

/-- Witness for C8: a concrete no-tool-call response ends a run with its
text as the final output. -/
theorem C8_no_tool_calls_done_witness :
    agentLoop [⟨[⟨some "hello", []⟩]⟩] ⟨⟨[], [], []⟩, fun _ => .error "no"⟩ [Turn.user "hi"]
      = some (.done "hello" [Turn.user "hi", Turn.assistant (some "hello") []]) :=
  (C8_no_tool_calls_done ⟨some "hello", []⟩ [] rfl [] ⟨⟨[], [], []⟩, fun _ => .error "no"⟩
    [Turn.user "hi"]).1

/-- C1: when the shell process exits with a non-zero code, the Execute
tool succeeds and returns text prefixed with `Exit code: <n>` — on its
own line before the captured output when there is captured output,
otherwise as the entire result; and the agent loop treats this as an
ordinary tool result and proceeds to the next model round-trip. -/
theorem C1_nonzero_exit_is_soft (args : Args) (sh : Shell) (cmd : String)
    (r : ProcResult) (hcmd : args.command = some cmd) (hcne : cmd ≠ "")
    (hsh : sh cmd = .ok r) (hrc : r.returncode ≠ 0) :
    ∃ t : String,
      execute_bash_tool args sh = .ok t ∧
      t = (if combineOutput r = "" then "Exit code: " ++ toString r.returncode
           else "Exit code: " ++ toString r.returncode ++ "\n" ++ combineOutput r) ∧
      ∀ (fs : FS) (msgs : List Turn) (tc : ToolCall) (content : Option String)
        (cs : List Message),
        tc.type = "function" → tc.function.arguments = .parsed args →
        resolve tc.function.name = some .bash →
        runStep ⟨fs, sh⟩ ⟨⟨content, [tc]⟩ :: cs⟩ msgs =
          .next ⟨fs, sh⟩ (msgs ++ [Turn.assistant content [tc], Turn.tool tc.id t]) ∧
        ∀ rest : List ChatResponse,
          agentLoop (⟨⟨content, [tc]⟩ :: cs⟩ :: rest) ⟨fs, sh⟩ msgs =
            agentLoop rest ⟨fs, sh⟩
              (msgs ++ [Turn.assistant content [tc], Turn.tool tc.id t]) := by
  have hbash : execute_bash_tool args sh =
      .ok (if combineOutput r = "" then "Exit code: " ++ toString r.returncode
           else "Exit code: " ++ toString r.returncode ++ "\n" ++ combineOutput r) := by
    by_cases h : combineOutput r = "" <;>
      simp [execute_bash_tool, hcmd, hcne, hsh, hrc, h]
  refine ⟨_, hbash, rfl, ?_⟩
  intro fs msgs tc content cs ht ha hr
  have hexec : execute_tool_call ⟨fs, sh⟩ tc =
      .ok ((if combineOutput r = "" then "Exit code: " ++ toString r.returncode
            else "Exit code: " ++ toString r.returncode ++ "\n" ++ combineOutput r),
           ⟨fs, sh⟩) := by
    rw [execute_tool_call_resolve ⟨fs, sh⟩ tc args ht ha, hr]
    dsimp only
    rw [hbash]
    rfl
  constructor
  · simp [runStep, dispatchTools, hexec]
  · intro rest
    simp [agentLoop, runStep, dispatchTools, hexec]

/-- Witness for C1: `Execute("exit 3")` with no captured output returns
exactly `Exit code: 3`. -/
theorem C1_nonzero_exit_is_soft_witness :
    execute_bash_tool ⟨none, none, some "exit 3"⟩ (fun _ => .ok ⟨"", "", 3⟩)
      = .ok "Exit code: 3" := by
  obtain ⟨t, h1, h2, _⟩ := C1_nonzero_exit_is_soft ⟨none, none, some "exit 3"⟩
    (fun _ => .ok ⟨"", "", 3⟩) "exit 3" ⟨"", "", 3⟩ rfl (by decide) rfl (by decide)
  rw [h1, h2]
  decide

/-- Counterexample to C2 as stated: for stdout `"a\n"` and stderr
`"b\n"` the tool returns `"a\n\nb"` (the untrimmed streams joined by an
inserted newline, overall stripped), while the claim's per-stream
trailing-trim wording predicts `"a\nb"`. -/
theorem C2_counterexample :
    execute_bash_tool ⟨none, none, some "c"⟩ (fun _ => .ok ⟨"a\n", "b\n", 0⟩)
      = .ok "a\n\nb" ∧
    specCombine "a\n" "b\n" = "a\nb" ∧
    ("a\n\nb" : String) ≠ "a\nb" := by
  refine ⟨by decide, by decide, by decide⟩

/-- C2 (amended): the returned text (before any exit-code prefix) is
stdout then stderr, each included untrimmed when non-empty, joined by a
single inserted newline, with only the overall result stripped of
leading and trailing whitespace; in particular when both streams are
non-empty the result is `strip(stdout ++ "\n" ++ stderr)`. -/
theorem C2_output_combination (args : Args) (sh : Shell) (cmd : String)
    (r : ProcResult) (hcmd : args.command = some cmd) (hcne : cmd ≠ "")
    (hsh : sh cmd = .ok r) (hrc : r.returncode = 0) :
    execute_bash_tool args sh = .ok (combineOutput r) ∧
    combineOutput r = pyStrip (joinParts
      ((if r.stdout = "" then [] else [r.stdout]) ++
       (if r.stderr = "" then [] else [r.stderr]))) ∧
    (r.stdout ≠ "" → r.stderr ≠ "" →
      combineOutput r = pyStrip (r.stdout ++ "\n" ++ r.stderr)) := by
  refine ⟨?_, rfl, ?_⟩
  · simp [execute_bash_tool, hcmd, hcne, hsh, hrc]
  · intro h1 h2
    simp [combineOutput, h1, h2, joinParts]

/-- Witness for C2's amended theorem at a concrete command. -/
theorem C2_output_combination_witness :
    execute_bash_tool ⟨none, none, some "c"⟩ (fun _ => .ok ⟨"a\n", "b\n", 0⟩)
      = .ok (combineOutput ⟨"a\n", "b\n", 0⟩) :=
  (C2_output_combination ⟨none, none, some "c"⟩ (fun _ => .ok ⟨"a\n", "b\n", 0⟩)
    "c" ⟨"a\n", "b\n", 0⟩ rfl (by decide) rfl rfl).1

/-- C9: when one assistant turn's tool batch is dispatched, the appended
tool-result turns preserve the order of the requests, there is exactly
one result per request, each result carries its request's id, and
execution is strictly sequential: each call of the batch runs in the
world produced by the previous one. -/
theorem C9_order_ids_sequential (w w1 : World) (m : Message) (cs : List Message)
    (msgs msgs1 : List Turn)
    (h : runStep w ⟨m :: cs⟩ msgs = .next w1 msgs1) :
    (∃ texts : List String, texts.length = m.tool_calls.length ∧
      msgs1 = msgs ++ Turn.assistant m.content m.tool_calls ::
        List.zipWith (fun tc t => Turn.tool tc.id t) m.tool_calls texts) ∧
    (∀ (w0 : World) (tc0 : ToolCall) (rest : List ToolCall) (wend : World)
       (turns : List Turn),
      dispatchTools w0 (tc0 :: rest) = .ok (wend, turns) →
      ∃ r wmid turns', execute_tool_call w0 tc0 = .ok (r, wmid) ∧
        dispatchTools wmid rest = .ok (wend, turns') ∧
        turns = Turn.tool tc0.id r :: turns') := by
  constructor
  · simp only [runStep] at h
    cases htc : m.tool_calls with
    | nil => rw [htc] at h; cases h
    | cons tc0 tl =>
      rw [htc] at h
      dsimp only at h
      cases hd : dispatchTools w (tc0 :: tl) with
      | error e => rw [hd] at h; cases h
      | ok pr =>
        obtain ⟨wend, toolTurns⟩ := pr
        rw [hd] at h
        dsimp only at h
        cases h
        obtain ⟨texts, hlen, hshape⟩ := dispatchTools_ok_shape _ _ _ _ hd
        exact ⟨texts, hlen, by rw [hshape]⟩
  · exact fun w0 tc0 rest wend turns hh =>
      dispatchTools_cons_ok w0 tc0 rest wend turns hh

/-- Witness for C9 at a concrete one-call batch. -/
theorem C9_order_ids_sequential_witness :
    ∃ texts : List String,
      texts.length = [(⟨"id1", "function",
        ⟨"Read", ArgSrc.parsed ⟨some "f.txt", none, none⟩⟩⟩ : ToolCall)].length ∧
      ([Turn.assistant (some "working") [⟨"id1", "function",
          ⟨"Read", ArgSrc.parsed ⟨some "f.txt", none, none⟩⟩⟩],
        Turn.tool "id1" "hi"] : List Turn) =
        [] ++ Turn.assistant (some "working") [⟨"id1", "function",
          ⟨"Read", ArgSrc.parsed ⟨some "f.txt", none, none⟩⟩⟩] ::
          List.zipWith (fun tc t => Turn.tool tc.id t)
            [(⟨"id1", "function",
              ⟨"Read", ArgSrc.parsed ⟨some "f.txt", none, none⟩⟩⟩ : ToolCall)] texts :=
  (C9_order_ids_sequential
    ⟨⟨[("f.txt", .readable "hi")], [], []⟩, fun _ => .error "no"⟩
    ⟨⟨[("f.txt", .readable "hi")], [], []⟩, fun _ => .error "no"⟩
    ⟨some "working", [⟨"id1", "function", ⟨"Read", .parsed ⟨some "f.txt", none, none⟩⟩⟩]⟩
    [] []
    [Turn.assistant (some "working") [⟨"id1", "function",
      ⟨"Read", .parsed ⟨some "f.txt", none, none⟩⟩⟩], Turn.tool "id1" "hi"]
    rfl).1

/-- Counterexample to C3 as stated: the call with the present (but
empty) `file_path` and present content is rejected with the
missing-parameter error instead of writing, because the truthiness check
`if not file_path` treats the empty string like an absent argument. -/
theorem C3_counterexample :
    execute_write_tool ⟨some "", some "x", none⟩ ⟨[], [], []⟩
      = .error (.missingParameter "file_path parameter is missing") ∧
    (⟨some "", some "x", none⟩ : Args).file_path ≠ none ∧
    (⟨some "", some "x", none⟩ : Args).content ≠ none := by
  refine ⟨by decide, by decide, by decide⟩

/-- C3 (amended): for every Write call with a present non-empty
`file_path` and a present content string (the empty string included),
when the OS raises no error for the path: the tool succeeds, all missing
intermediate directories of the path are in the resulting filesystem (a
no-op when the path has no directory component), the file at the path
holds exactly the given content with every other path untouched, and the
returned confirmation string contains the path. -/
theorem C3_write_success (args : Args) (fs : FS) (p c : String)
    (hp : args.file_path = some p) (hpne : p ≠ "") (hc : args.content = some c)
    (hok : lookupBad fs.badWrites p = none) :
    ∃ fs' : FS,
      execute_write_tool args fs = .ok ("Successfully wrote to " ++ p, fs') ∧
      lookupFile fs'.files p = some (.readable c) ∧
      (∀ q, q ≠ p → lookupFile fs'.files q = lookupFile fs.files q) ∧
      (∀ d, d ∈ dirChainOf (dirname p) → d ∈ fs'.dirs) ∧
      (dirname p = "" → fs'.dirs = fs.dirs) ∧
      (∃ t : String, "Successfully wrote to " ++ p = t ++ p) := by
  have hex : execute_write_tool args fs =
      .ok ("Successfully wrote to " ++ p,
        { (if dirname p = "" then fs
           else { fs with dirs := dirChainOf (dirname p) ++ fs.dirs }) with
          files := setFile
            (if dirname p = "" then fs
             else { fs with dirs := dirChainOf (dirname p) ++ fs.dirs }).files p c }) := by
    simp only [execute_write_tool, hp, hc, hok]
    rw [if_neg hpne]
  refine ⟨_, hex, ?_, ?_, ?_, ?_, ⟨"Successfully wrote to ", rfl⟩⟩
  · simp [setFile, lookupFile]
  · intro q hq
    have hqp : ¬ (p = q) := fun h => hq h.symm
    by_cases hd : dirname p = "" <;> simp [hd, setFile, lookupFile, hqp]
  · intro d hd
    by_cases h : dirname p = ""
    · rw [h] at hd
      simp [dirChainOf, dirChainAux] at hd
    · simp only [if_neg h]
      exact List.mem_append_left _ hd
  · intro h
    simp [h]

/-- Witness for C3's amended theorem: writing `hello` to `a/b/c.txt` on
the empty filesystem. -/
theorem C3_write_success_witness :
    ∃ fs' : FS,
      execute_write_tool ⟨some "a/b/c.txt", some "hello", none⟩ ⟨[], [], []⟩
        = .ok ("Successfully wrote to a/b/c.txt", fs') ∧
      lookupFile fs'.files "a/b/c.txt" = some (.readable "hello") ∧
      (∀ q, q ≠ "a/b/c.txt" →
        lookupFile fs'.files q = lookupFile ([] : List (String × FileState)) q) ∧
      (∀ d, d ∈ dirChainOf (dirname "a/b/c.txt") → d ∈ fs'.dirs) ∧
      (dirname "a/b/c.txt" = "" → fs'.dirs = ([] : List String)) ∧
      (∃ t : String, "Successfully wrote to a/b/c.txt" = t ++ "a/b/c.txt") :=
  C3_write_success ⟨some "a/b/c.txt", some "hello", none⟩ ⟨[], [], []⟩
    "a/b/c.txt" "hello" rfl (by decide) rfl rfl

/-- C4: round-trip law — a successful Write of any content to a path
followed immediately by a Read of the same path returns exactly the
written content. -/
theorem C4_write_read_round_trip (argsW argsR : Args) (fs fs' : FS)
    (p c msg : String)
    (hpW : argsW.file_path = some p) (hcW : argsW.content = some c)
    (hw : execute_write_tool argsW fs = .ok (msg, fs'))
    (hpR : argsR.file_path = some p) :
    execute_read_tool argsR fs' = .ok c := by
  simp only [execute_write_tool, hpW, hcW] at hw
  by_cases hpne : p = ""
  · rw [if_pos hpne] at hw
    cases hw
  · rw [if_neg hpne] at hw
    cases hbad : lookupBad fs.badWrites p with
    | some m => rw [hbad] at hw; cases hw
    | none =>
      rw [hbad] at hw
      dsimp only at hw
      simp only [Except.ok.injEq, Prod.mk.injEq] at hw
      obtain ⟨hmsg, hfs⟩ := hw
      subst hfs
      simp [execute_read_tool, hpR, hpne, setFile, lookupFile]

/-- Witness for C4: writing the empty string to `a/b/c.txt` and reading
it back yields the empty string. -/
theorem C4_write_read_round_trip_witness :
    execute_read_tool ⟨some "a/b/c.txt", none, none⟩
      ⟨[("a/b/c.txt", .readable "")], ["a/b", "a"], []⟩ = .ok "" :=
  C4_write_read_round_trip ⟨some "a/b/c.txt", some "", none⟩
    ⟨some "a/b/c.txt", none, none⟩ ⟨[], [], []⟩
    ⟨[("a/b/c.txt", .readable "")], ["a/b", "a"], []⟩
    "a/b/c.txt" "" "Successfully wrote to a/b/c.txt" rfl rfl (by decide) rfl

/-- Counterexample to C5 as stated: with the present (but empty)
`file_path` the Read tool fails with the missing-parameter error even
though the argument is not absent, so "MissingParameter iff absent"
fails (and the empty path does not exist, yet the failure is not
NotFound). -/
theorem C5_counterexample :
    execute_read_tool ⟨some "", none, none⟩ ⟨[], [], []⟩
      = .error (.missingParameter "file_path parameter is missing") ∧
    (⟨some "", none, none⟩ : Args).file_path ≠ none ∧
    lookupFile ([] : List (String × FileState)) "" = none := by
  refine ⟨by decide, by decide, rfl⟩

/-- C5 (amended): the Read tool fails with MissingParameter iff
`file_path` is absent or the empty string, and in that case without
touching the filesystem; it fails with NotFound iff the (non-empty)
path does not exist; it fails with IOFailure iff opening the existing
path for reading raises; otherwise it returns the file contents. -/
theorem C5_read_classification (args : Args) (fs : FS) :
    ((∃ m, execute_read_tool args fs = .error (.missingParameter m)) ↔
      (args.file_path = none ∨ args.file_path = some "")) ∧
    ((∃ m, execute_read_tool args fs = .error (.notFound m)) ↔
      (∃ p, args.file_path = some p ∧ p ≠ "" ∧ lookupFile fs.files p = none)) ∧
    ((∃ m, execute_read_tool args fs = .error (.ioFailure m)) ↔
      (∃ p em, args.file_path = some p ∧ p ≠ "" ∧
        lookupFile fs.files p = some (.unreadable em))) ∧
    (∀ p c, args.file_path = some p → p ≠ "" →
      lookupFile fs.files p = some (.readable c) →
      execute_read_tool args fs = .ok c) ∧
    ((args.file_path = none ∨ args.file_path = some "") →
      ∀ fs', execute_read_tool args fs = execute_read_tool args fs') := by
  cases hfp : args.file_path with
  | none =>
    refine ⟨by simp [execute_read_tool, hfp], by simp [execute_read_tool, hfp],
      by simp [execute_read_tool, hfp], ?_, ?_⟩
    · intro p c hp _ _
      cases hp
    · intro _ fs'
      simp [execute_read_tool, hfp]
  | some p =>
    by_cases hpne : p = ""
    · subst hpne
      refine ⟨by simp [execute_read_tool, hfp], by simp [execute_read_tool, hfp],
        by simp [execute_read_tool, hfp], ?_, ?_⟩
      · intro p c hp hpne _
        cases hp
        exact absurd rfl hpne
      · intro _ fs'
        simp [execute_read_tool, hfp]
    · cases hl : lookupFile fs.files p with
      | none =>
        refine ⟨by simp [execute_read_tool, hfp, hpne, hl],
          by simp [execute_read_tool, hfp, hpne, hl],
          by simp [execute_read_tool, hfp, hpne, hl],
          ?_, by simp [hfp, hpne]⟩
        intro p' c hp' _ hl'
        cases hp'
        rw [hl] at hl'
        cases hl'
      | some st =>
        cases st with
        | readable c =>
          refine ⟨by simp [execute_read_tool, hfp, hpne, hl],
            by simp [execute_read_tool, hfp, hpne, hl],
            by simp [execute_read_tool, hfp, hpne, hl],
            ?_, by simp [hfp, hpne]⟩
          intro p' c' hp' _ hl'
          cases hp'
          rw [hl] at hl'
          cases hl'
          simp [execute_read_tool, hfp, hpne, hl]
        | unreadable em =>
          refine ⟨by simp [execute_read_tool, hfp, hpne, hl],
            by simp [execute_read_tool, hfp, hpne, hl],
            by simp [execute_read_tool, hfp, hpne, hl],
            ?_, by simp [hfp, hpne]⟩
          intro p' c' hp' _ hl'
          cases hp'
          rw [hl] at hl'
          cases hl'

/-- Witness for C5's amended classification at concrete inputs. -/
theorem C5_read_classification_witness :
    (∃ m, execute_read_tool ⟨none, none, none⟩ ⟨[], [], []⟩
      = .error (.missingParameter m)) ∧
    (∃ m, execute_read_tool ⟨some "g.txt", none, none⟩ ⟨[], [], []⟩
      = .error (.notFound m)) ∧
    execute_read_tool ⟨some "f.txt", none, none⟩
      ⟨[("f.txt", .readable "B")], [], []⟩ = .ok "B" := by
  refine ⟨?_, ?_, ?_⟩
  · exact (C5_read_classification ⟨none, none, none⟩ ⟨[], [], []⟩).1.mpr (Or.inl rfl)
  · exact (C5_read_classification ⟨some "g.txt", none, none⟩ ⟨[], [], []⟩).2.1.mpr
      ⟨"g.txt", rfl, by decide, rfl⟩
  · exact (C5_read_classification ⟨some "f.txt", none, none⟩
      ⟨[("f.txt", .readable "B")], [], []⟩).2.2.2.1 "f.txt" "B" rfl (by decide) (by decide)

/-- C10: a required tool argument supplied as the empty string is
treated the same as an absent one — Read and Write with empty
`file_path` and Execute with empty `command` fail with the
missing-parameter error before any filesystem or process side effect —
while Write's content check rejects only `None`, so the empty content
string is accepted. -/
theorem C10_empty_string_params :
    (∀ (args : Args) (fs : FS), args.file_path = some "" →
      execute_read_tool args fs
        = .error (.missingParameter "file_path parameter is missing") ∧
      ∀ fs', execute_read_tool args fs = execute_read_tool args fs') ∧
    (∀ (args : Args) (fs : FS), args.file_path = some "" →
      execute_write_tool args fs
        = .error (.missingParameter "file_path parameter is missing") ∧
      ∀ fs', execute_write_tool args fs = execute_write_tool args fs') ∧
    (∀ (args : Args) (sh : Shell), args.command = some "" →
      execute_bash_tool args sh
        = .error (.missingParameter "command parameter is missing") ∧
      ∀ sh' : Shell, execute_bash_tool args sh = execute_bash_tool args sh') ∧
    (∀ (args : Args) (fs : FS), args.file_path = none →
      execute_read_tool args fs
        = .error (.missingParameter "file_path parameter is missing") ∧
      execute_write_tool args fs
        = .error (.missingParameter "file_path parameter is missing")) ∧
    (∀ (args : Args) (fs : FS) (p : String), args.file_path = some p → p ≠ "" →
      args.content = some "" → lookupBad fs.badWrites p = none →
      ∃ fs', execute_write_tool args fs = .ok ("Successfully wrote to " ++ p, fs')) := by
  refine ⟨?_, ?_, ?_, ?_, ?_⟩
  · intro args fs h
    exact ⟨by simp [execute_read_tool, h], fun fs' => by simp [execute_read_tool, h]⟩
  · intro args fs h
    exact ⟨by simp [execute_write_tool, h], fun fs' => by simp [execute_write_tool, h]⟩
  · intro args sh h
    exact ⟨by simp [execute_bash_tool, h], fun sh' => by simp [execute_bash_tool, h]⟩
  · intro args fs h
    exact ⟨by simp [execute_read_tool, h], by simp [execute_write_tool, h]⟩
  · intro args fs p hp hpne hc hok
    have hex : execute_write_tool args fs =
        .ok ("Successfully wrote to " ++ p,
          { (if dirname p = "" then fs
             else { fs with dirs := dirChainOf (dirname p) ++ fs.dirs }) with
            files := setFile
              (if dirname p = "" then fs
               else { fs with dirs := dirChainOf (dirname p) ++ fs.dirs }).files p "" }) := by
      simp only [execute_write_tool, hp, hc, hok]
      rw [if_neg hpne]
    exact ⟨_, hex⟩

/-- Witness for C10 at concrete empty-string arguments. -/
theorem C10_empty_string_params_witness :
    execute_read_tool ⟨some "", none, none⟩ ⟨[], [], []⟩
      = .error (.missingParameter "file_path parameter is missing") ∧
    execute_write_tool ⟨some "", some "x", none⟩ ⟨[], [], []⟩
      = .error (.missingParameter "file_path parameter is missing") ∧
    execute_bash_tool ⟨none, none, some ""⟩ (fun _ => .ok ⟨"", "", 0⟩)
      = .error (.missingParameter "command parameter is missing") := by
  refine ⟨?_, ?_, ?_⟩
  · exact (C10_empty_string_params.1 ⟨some "", none, none⟩ ⟨[], [], []⟩ rfl).1
  · exact (C10_empty_string_params.2.1 ⟨some "", some "x", none⟩ ⟨[], [], []⟩ rfl).1
  · exact (C10_empty_string_params.2.2.1 ⟨none, none, some ""⟩
      (fun _ => .ok ⟨"", "", 0⟩) rfl).1

end CodeAgent
